import Mathlib

/-!
Shallow embedding of `src/addon_none.cc`, the facade of the native
notification addon used on platforms without notification support.
JavaScript values reachable from this module are modelled by `JSValue`;
a N-API callable either returns a value or throws a JavaScript value,
modelled by `Except JSValue JSValue` (the `.error` branch is a throw).
-/

/-- JavaScript values produced by the facade: `undefined`, booleans, strings,
plain objects (ordered field lists), and promises in each of their three
settlement states (a settled promise carries its settlement value). -/
inductive JSValue : Type where
  | undefined : JSValue
  | boolean : Bool → JSValue
  | str : String → JSValue
  | object : List (String × JSValue) → JSValue
  | pendingPromise : JSValue
  | resolvedPromise : JSValue → JSValue
  | rejectedPromise : JSValue → JSValue
  deriving Repr

/-- Arguments supplied to a N-API callback (`Napi::CallbackInfo`). -/
def CallbackInfo : Type := List JSValue

/-- State of a `Napi::Promise::Deferred`. -/
inductive DeferredState : Type where
  | pending : DeferredState
  | resolved : JSValue → DeferredState
  | rejected : JSValue → DeferredState
  deriving Repr

/-- `Napi::Promise::Deferred::New`: a fresh deferred is pending. -/
def DeferredState.new : DeferredState := .pending

/-- `Deferred::Resolve`: resolving a pending deferred settles it as resolved;
a deferred that is already settled is unchanged. -/
def DeferredState.resolve : DeferredState → JSValue → DeferredState
  | .pending, v => .resolved v
  | d, _ => d

/-- `Deferred::Promise()`: the promise value reflecting the deferred's state. -/
def DeferredState.promise : DeferredState → JSValue
  | .pending => .pendingPromise
  | .resolved v => .resolvedPromise v
  | .rejected v => .rejectedPromise v

/-- `Napi::Object::Set`: overwrite the field if the key is present, else
append it, preserving insertion order. -/
def setField : List (String × JSValue) → String → JSValue → List (String × JSValue)
  | [], k, v => [(k, v)]
  | (k', v') :: rest, k, v =>
      if k' = k then (k, v) :: rest else (k', v') :: setField rest k v

/-- Reading a property of a plain object: association-list lookup. -/
def JSValue.getField : JSValue → String → Option JSValue
  | .object fields, k => fields.lookup k
  | _, _ => none

/-- Whether a value is a promise (in any settlement state). -/
def JSValue.isPromise : JSValue → Bool
  | .pendingPromise => true
  | .resolvedPromise _ => true
  | .rejectedPromise _ => true
  | _ => false

/-- `IsAvailable` from `addon_none.cc`: returns the boolean `false`. -/
def IsAvailable (info : CallbackInfo) : Except JSValue JSValue :=
  .ok (.boolean false)

/-- `RequestPermission` from `addon_none.cc`: creates a deferred, resolves it
with the boolean `false`, and returns its promise. -/
def RequestPermission (info : CallbackInfo) : Except JSValue JSValue :=
  .ok ((DeferredState.new.resolve (.boolean false)).promise)

/-- `GetPermissionStatus` from `addon_none.cc`: creates a deferred, resolves
it with the string `"denied"`, and returns its promise. -/
def GetPermissionStatus (info : CallbackInfo) : Except JSValue JSValue :=
  .ok ((DeferredState.new.resolve (.str "denied")).promise)

/-- `ShowNotification` from `addon_none.cc`: builds an object with fields
`success := false` and `error := ` the fixed unavailability message, resolves
a fresh deferred with it, and returns the promise. -/
def ShowNotification (info : CallbackInfo) : Except JSValue JSValue :=
  let result :=
    setField (setField [] "success" (.boolean false))
      "error" (.str "Native notifications not available on this platform")
  .ok ((DeferredState.new.resolve (.object result)).promise)

/-- `RemoveNotification` from `addon_none.cc`: returns `undefined`. -/
def RemoveNotification (info : CallbackInfo) : Except JSValue JSValue :=
  .ok .undefined

/-- `RemoveAllNotifications` from `addon_none.cc`: returns `undefined`. -/
def RemoveAllNotifications (info : CallbackInfo) : Except JSValue JSValue :=
  .ok .undefined

/-- The six entry points installed by `Init`. -/
inductive Op : Type where
  | isAvailable
  | requestPermission
  | getPermissionStatus
  | showNotification
  | removeNotification
  | removeAllNotifications
  deriving Repr, DecidableEq

/-- Dispatch a call to the function that `Init` binds to each export. -/
def dispatch : Op → CallbackInfo → Except JSValue JSValue
  | .isAvailable, info => IsAvailable info
  | .requestPermission, info => RequestPermission info
  | .getPermissionStatus, info => GetPermissionStatus info
  | .showNotification, info => ShowNotification info
  | .removeNotification, info => RemoveNotification info
  | .removeAllNotifications, info => RemoveAllNotifications info

/-- The export table set up by `Init`: the names under which the host can
reach each operation. -/
def moduleExports : List (String × Op) :=
  [("isAvailable", .isAvailable),
   ("requestPermission", .requestPermission),
   ("getPermissionStatus", .getPermissionStatus),
   ("showNotification", .showNotification),
   ("removeNotification", .removeNotification),
   ("removeAllNotifications", .removeAllNotifications)]

/-- Run a sequence of calls against the module. The source holds no mutable
state (no globals, no fields), so the result of each call in a trace is
produced from the call alone, in order. -/
def runTrace : List (Op × CallbackInfo) → List (Except JSValue JSValue)
  | [] => []
  | (op, info) :: rest => dispatch op info :: runTrace rest

/-- Modelled from the spec: the enumerated permission-status values named in
the data model (granted, denied, not-determined); the enumeration itself is
not part of the fallback source file, which only ever produces `"denied"`. -/
def permissionStatusValues : List String :=
  ["granted", "denied", "not-determined"]

theorem runTrace_append (t₁ t₂ : List (Op × CallbackInfo)) :
    runTrace (t₁ ++ t₂) = runTrace t₁ ++ runTrace t₂ := by
  induction t₁ with
  | nil => rfl
  | cons c rest ih =>
      cases c with
      | mk op info => simp [runTrace, ih]

/-- Claim C1: for every notification descriptor, including the empty one,
`showNotification` settles by resolving (never rejecting) with a record whose
`success` field is `false` and whose `error` field is exactly the string
"Native notifications not available on this platform". -/
theorem showNotification_settles_with_error_record (D : CallbackInfo) :
    ∃ r, ShowNotification D = .ok (.resolvedPromise (.object r)) ∧
      (JSValue.object r).getField "success" = some (.boolean false) ∧
      (JSValue.object r).getField "error" =
        some (.str "Native notifications not available on this platform") := by
  refine ⟨[("success", .boolean false),
    ("error", .str "Native notifications not available on this platform")],
    rfl, rfl, rfl⟩

/-- Claim C2: for every argument list, `isAvailable` returns the boolean
`false` synchronously, that is, the returned value is not a promise. -/
theorem isAvailable_returns_false_synchronously (info : CallbackInfo) :
    IsAvailable info = .ok (.boolean false) ∧
      ∀ r, IsAvailable info = .ok r → r.isPromise = false := by
  refine ⟨rfl, fun r h => ?_⟩
  simp only [IsAvailable, Except.ok.injEq] at h
  subst h
  rfl

/-- Claim C3: for every call, `requestPermission` settles by resolving with
the boolean `false`; it never resolves to `true` and never rejects. -/
theorem requestPermission_settles_false (info : CallbackInfo) :
    RequestPermission info = .ok (.resolvedPromise (.boolean false)) := rfl

/-- Claim C4: for every call, `getPermissionStatus` settles by resolving
(never rejecting) with exactly the string `"denied"`, which is one of the
enumerated permission-status values. -/
theorem getPermissionStatus_settles_denied (info : CallbackInfo) :
    GetPermissionStatus info = .ok (.resolvedPromise (.str "denied")) ∧
      "denied" ∈ permissionStatusValues := by
  refine ⟨rfl, by decide⟩

/-- Claim C5: for every identifier, `removeNotification` returns without
error with no return value, `removeAllNotifications` does the same, and a
removal call placed anywhere inside a trace leaves the results of every
other call unchanged (no observable effect). -/
theorem removal_ops_no_error_no_effect (id : CallbackInfo)
    (t₁ t₂ : List (Op × CallbackInfo)) :
    RemoveNotification id = .ok .undefined ∧
    RemoveAllNotifications id = .ok .undefined ∧
    runTrace (t₁ ++ (Op.removeNotification, id) :: t₂) =
      runTrace t₁ ++ .ok JSValue.undefined :: runTrace t₂ ∧
    runTrace (t₁ ++ (Op.removeAllNotifications, id) :: t₂) =
      runTrace t₁ ++ .ok JSValue.undefined :: runTrace t₂ := by
  refine ⟨rfl, rfl, ?_, ?_⟩ <;> rw [runTrace_append] <;> rfl

/-- Claim C6: the three asynchronous operations each return a promise
already resolved at the moment the operation returns; the promise is never
pending and never rejected. -/
theorem async_ops_promise_already_settled (info : CallbackInfo) :
    (∃ v, RequestPermission info = .ok (.resolvedPromise v)) ∧
    (∃ v, GetPermissionStatus info = .ok (.resolvedPromise v)) ∧
    (∃ v, ShowNotification info = .ok (.resolvedPromise v)) :=
  ⟨⟨_, rfl⟩, ⟨_, rfl⟩, ⟨_, rfl⟩⟩

/-- Claim C7: the module is stateless, so in every trace of calls each call
produces the result determined by that call alone, regardless of how many
other calls surround it or in what order. -/
theorem ops_stateless_idempotent (t₁ t₂ : List (Op × CallbackInfo))
    (c : Op × CallbackInfo) :
    runTrace (t₁ ++ c :: t₂) =
      runTrace t₁ ++ dispatch c.1 c.2 :: runTrace t₂ := by
  rw [runTrace_append]
  cases c
  rfl

/-- Claim C8: every operation ignores its inputs entirely: any two argument
lists produce the same result. -/
theorem ops_ignore_inputs (op : Op) (info₁ info₂ : CallbackInfo) :
    dispatch op info₁ = dispatch op info₂ := by
  cases op <;> rfl

/-- Claim C9: no operation throws: every one of the six entry points returns
a normal value for every argument list. -/
theorem ops_never_throw (op : Op) (info : CallbackInfo) :
    ∃ v, dispatch op info = .ok v := by
  cases op <;> exact ⟨_, rfl⟩

/-- Claim C10: `removeNotification` and `removeAllNotifications` each return
the value `undefined` (not `null`, not a promise, not an error) on every
call. -/
theorem removal_ops_return_undefined (info : CallbackInfo) :
    RemoveNotification info = .ok .undefined ∧
    RemoveAllNotifications info = .ok .undefined := ⟨rfl, rfl⟩
